import Mathlib

/-!
# Control loop of the PES board example (`src/main.cpp`)

A shallow embedding of the periodic control loop of `main.cpp`: the two global
flags, the asynchronous toggle handler `toggle_do_execute_main_fcn`, and one
pass through the body of the `while (true)` loop of `main`.

Modelling decisions.

* `float` values are exact rationals (`ℚ`); rounding, infinities and NaN are
  outside the model.
* `int` values are integers (`Int`); the one `int` subtraction of the loop is
  wrapped to 32 bits explicitly.
* One pass through the loop body is the function `main_loop_body`. What the
  pass reads from the hardware (`us_sensor.read()`, `mechanical_button.read()`,
  the elapsed time of the timer) is its `Input`; what it emits (the argument of
  `setNormalisedPulseWidth`, the printed distance, the argument of
  `thread_sleep_for`) is its `Output`.
* The user button handler runs between two passes of the loop body: an
  execution is a list of `Event`s, each a tick or a toggle.
* The variables `servo_D1`, `servo_counter`, `loops_per_seconds` and the outer
  `servo_input` of `main` are never read by the loop and are left out.
-/

namespace PES

/-- The states of the state machine, `enum RobotState` of `main` (lines 23-28). -/
inductive RobotState where
  | INITIAL
  | EXECUTION
  | SLEEP
  | EMERGENCY
  deriving DecidableEq, Repr

/-- Modelled from the spec: the Actuator Adapter (`pm2_drivers/Servo.h` is not
among the sources). The spec gives it the operations `enable()`, `disable()`,
`isEnabled()` and `setCommand(float)`; the model keeps the enable bit and the
last commanded value (`none` as long as no command was sent). -/
structure Servo where
  enabled : Bool
  pulse : Option ℚ
  deriving DecidableEq

/-- Modelled from the spec: `isEnabled()` of the Actuator Adapter. -/
def Servo.isEnabled (sv : Servo) : Bool := sv.enabled

/-- Modelled from the spec: `enable()` of the Actuator Adapter. -/
def Servo.enable (sv : Servo) : Servo := { sv with enabled := true }

/-- Modelled from the spec: `disable()` of the Actuator Adapter. -/
def Servo.disable (sv : Servo) : Servo := { sv with enabled := false }

/-- Modelled from the spec: `setCommand(float)` of the Actuator Adapter, called
`setNormalisedPulseWidth` in `main.cpp`; the argument is stored as passed. -/
def Servo.setNormalisedPulseWidth (sv : Servo) (p : ℚ) : Servo :=
  { sv with pulse := some p }

/-- The variables the loop and the toggle handler read and write: the two
globals (lines 8-11) and the locals of `main` that outlive one pass. -/
structure State where
  robot_state : RobotState
  do_execute_main_task : Bool
  do_reset_all_once : Bool
  us_distance_cm : ℚ
  servo_D0 : Servo
  led1 : Bool
  user_led : Bool
  deriving DecidableEq

/-- What one pass of the loop body reads from the hardware. -/
structure Input where
  /-- Value returned by `us_sensor.read()` (line 96). -/
  us_read : ℚ
  /-- Value of `mechanical_button.read()` as a condition (lines 120, 131). -/
  button : Bool
  /-- Value of `main_task_elapsed_time_ms` (line 168). -/
  elapsed_ms : Int

/-- What one pass of the loop body emits. -/
structure Output where
  /-- Argument of `servo_D0.setNormalisedPulseWidth` when it is called (line 114). -/
  command : Option ℚ
  /-- Value printed by `printf` (line 165). -/
  printed : ℚ
  /-- Argument expression of `thread_sleep_for` (line 169), as an `int`. -/
  sleep_ms : Int

/-- `us_distance_min` (line 57). -/
def us_distance_min : ℚ := 7

/-- `us_distance_max` (line 58). -/
def us_distance_max : ℚ := 50

/-- `main_task_period_ms` (line 35). -/
def main_task_period_ms : Int := 20

/-- Two's-complement wrap of an integer to the range of a 32-bit `int`. -/
def wrapInt32 (x : Int) : Int := (x + 2 ^ 31) % 2 ^ 32 - 2 ^ 31

/-- The mapping from distance to servo command (line 113). -/
def servo_input (us_distance_cm : ℚ) : ℚ :=
  (1 / (us_distance_max - us_distance_min)) * us_distance_cm
    - (us_distance_min / (us_distance_max - us_distance_min))

/-- The sensor read and clamp (lines 96-99). -/
def read_us_distance (raw : ℚ) : ℚ := if raw < 0 then 0 else raw

/-- The handler `toggle_do_execute_main_fcn` (lines 173-180). -/
def toggle_do_execute_main_fcn (s : State) : State :=
  let s1 := { s with do_execute_main_task := !s.do_execute_main_task }
  if s1.do_execute_main_task then { s1 with do_reset_all_once := true } else s1

/-- The `switch (robot_state)` of the enabled branch (lines 102-148), run on a
state whose `us_distance_cm` is the clamped reading of this pass. Returns the
new state and the command passed to the servo, if any. -/
def state_machine (s : State) (button : Bool) : State × Option ℚ :=
  match s.robot_state with
  | RobotState.INITIAL =>
    let s1 := if !s.servo_D0.isEnabled then { s with servo_D0 := s.servo_D0.enable } else s
    ({ s1 with robot_state := RobotState.EXECUTION }, none)
  | RobotState.EXECUTION =>
    let cmd := servo_input s.us_distance_cm
    let s1 := { s with servo_D0 := s.servo_D0.setNormalisedPulseWidth cmd }
    let s2 :=
      if s1.us_distance_cm < us_distance_min ∨ s1.us_distance_cm > us_distance_max then
        { s1 with robot_state := RobotState.SLEEP }
      else s1
    let s3 := if button then { s2 with robot_state := RobotState.EMERGENCY } else s2
    (s3, some cmd)
  | RobotState.SLEEP =>
    let s1 :=
      if s.us_distance_cm > us_distance_min ∨ s.us_distance_cm < us_distance_max then
        { s with robot_state := RobotState.EXECUTION }
      else s
    let s2 := if button then { s1 with robot_state := RobotState.EMERGENCY } else s1
    (s2, none)
  | RobotState.EMERGENCY =>
    (toggle_do_execute_main_fcn s, none)

/-- The `if (do_execute_main_task) ... else ...` of the loop body (lines 90-159). -/
def main_task (s : State) (i : Input) : State × Option ℚ :=
  if s.do_execute_main_task then
    let s1 := { s with led1 := true }
    let s2 := { s1 with us_distance_cm := read_us_distance i.us_read }
    state_machine s2 i.button
  else
    if s.do_reset_all_once then
      ({ s with
          do_reset_all_once := false
          led1 := false
          servo_D0 := s.servo_D0.disable
          us_distance_cm := 0 }, none)
    else (s, none)

/-- The argument expression of `thread_sleep_for` (lines 168-169):
`main_task_period_ms - main_task_elapsed_time_ms` in `int` arithmetic. -/
def sleep_request (elapsed_ms : Int) : Int :=
  wrapInt32 (main_task_period_ms - elapsed_ms)

/-- One pass through the body of `while (true)` (lines 88-169). -/
def main_loop_body (s : State) (i : Input) : State × Output :=
  let r := main_task s i
  let s1 := { r.1 with user_led := !r.1.user_led }
  (s1, { command := r.2
         printed := s1.us_distance_cm
         sleep_ms := sleep_request i.elapsed_ms })

/-- The state after one pass through the loop body. -/
def tick (s : State) (i : Input) : State := (main_loop_body s i).1

/-- The state at the first pass of the loop: the initialisers of lines 8-10, 28
and 56; both LEDs are off and the servo has not been enabled or commanded. -/
def init : State :=
  { robot_state := RobotState.INITIAL
    do_execute_main_task := false
    do_reset_all_once := false
    us_distance_cm := 0
    servo_D0 := { enabled := false, pulse := none }
    led1 := false
    user_led := false }

/-- What can happen between two observations of the system: a pass of the loop
body with its inputs, or a press of the user button. -/
inductive Event where
  | tick (i : Input)
  | toggle

/-- The effect of one event. -/
def step (s : State) : Event → State
  | Event.tick i => tick s i
  | Event.toggle => toggle_do_execute_main_fcn s

/-- The effect of a finite sequence of events, oldest first. -/
def run (s : State) (evs : List Event) : State := evs.foldl step s

/-- The states the system can be in at a tick boundary. -/
def Reachable (s : State) : Prop := ∃ evs : List Event, run init evs = s

/-- The latch invariant: an enabled task has its reset pending. -/
def LatchInv (s : State) : Prop :=
  s.do_execute_main_task = true → s.do_reset_all_once = true

/-- An enabled state in EXECUTION: the user button was pressed once and the
loop body ran once, leaving INITIAL. -/
def exec_state : State :=
  run init [Event.toggle, Event.tick { us_read := 30, button := false, elapsed_ms := 3 }]

/-- An enabled state in SLEEP: from `exec_state`, one pass with a reading
above `us_distance_max`. -/
def sleep_state : State :=
  tick exec_state { us_read := 60, button := false, elapsed_ms := 3 }

/-- An enabled state in EMERGENCY: from `exec_state`, one pass with the
mechanical button reading true. -/
def emergency_state : State :=
  tick exec_state { us_read := 30, button := true, elapsed_ms := 3 }

/-- The states after each of a run of consecutive passes of the loop body
with the given inputs (oldest first), no toggle in between. -/
def tick_states (s : State) : List Input → List State
  | [] => []
  | i :: is => tick s i :: tick_states (tick s i) is

/-- The commands sent by each of a run of consecutive passes of the loop body
with the given inputs (oldest first), no toggle in between; `none` for a pass
that does not call `setNormalisedPulseWidth`. -/
def tick_commands (s : State) : List Input → List (Option ℚ)
  | [] => []
  | i :: is => (main_loop_body s i).2.command :: tick_commands (tick s i) is

/-- A disabled state in EMERGENCY: from `emergency_state`, the pass that calls
the toggle handler. -/
def stopped_state : State :=
  tick emergency_state { us_read := 30, button := false, elapsed_ms := 3 }

/-- A disabled state in EXECUTION with the servo disabled: enable, two passes,
toggle off, one pass (which runs the reset body). -/
def halted_state : State :=
  run init
    [Event.toggle,
     Event.tick { us_read := 30, button := false, elapsed_ms := 3 },
     Event.tick { us_read := 30, button := false, elapsed_ms := 3 },
     Event.toggle,
     Event.tick { us_read := 30, button := false, elapsed_ms := 3 }]

/-- The state after re-enabling from `halted_state`: toggle on, one pass. -/
def restarted_state : State :=
  tick (toggle_do_execute_main_fcn halted_state)
    { us_read := 30, button := false, elapsed_ms := 3 }

/-! ## Basic facts -/

theorem servo_input_eq (d : ℚ) : servo_input d = (d - 7) / 43 := by
  unfold servo_input us_distance_min us_distance_max
  ring

theorem read_us_distance_eq_max (raw : ℚ) : read_us_distance raw = max raw 0 := by
  unfold read_us_distance
  split_ifs with h
  · exact (max_eq_right (le_of_lt h)).symm
  · exact (max_eq_left (not_lt.mp h)).symm

theorem read_us_distance_nonneg (raw : ℚ) : 0 ≤ read_us_distance raw := by
  rw [read_us_distance_eq_max]
  exact le_max_right _ _

theorem main_task_enabled (s : State) (i : Input) (hen : s.do_execute_main_task = true) :
    main_task s i =
      state_machine
        { s with led1 := true, us_distance_cm := read_us_distance i.us_read } i.button := by
  simp [main_task, hen]

theorem tick_robot_state (s : State) (i : Input) :
    (tick s i).robot_state = (main_task s i).1.robot_state := rfl

theorem tick_eq (s : State) (i : Input) :
    tick s i = { (main_task s i).1 with user_led := !(main_task s i).1.user_led } := rfl

theorem tick_do_execute (s : State) (i : Input) :
    (tick s i).do_execute_main_task = (main_task s i).1.do_execute_main_task := rfl

theorem main_task_disabled_pending (s : State) (i : Input)
    (hen : s.do_execute_main_task = false) (hr : s.do_reset_all_once = true) :
    main_task s i =
      ({ s with
          do_reset_all_once := false
          led1 := false
          servo_D0 := s.servo_D0.disable
          us_distance_cm := 0 }, none) := by
  simp [main_task, hen, hr]

theorem main_task_disabled_idle (s : State) (i : Input)
    (hen : s.do_execute_main_task = false) (hr : s.do_reset_all_once = false) :
    main_task s i = (s, none) := by
  simp [main_task, hen, hr]

theorem state_machine_do_reset (s : State) (b : Bool)
    (hen : s.do_execute_main_task = true) :
    (state_machine s b).1.do_reset_all_once = s.do_reset_all_once := by
  unfold state_machine
  cases hst : s.robot_state <;> simp [toggle_do_execute_main_fcn, hen] <;>
    split_ifs <;> rfl

theorem state_machine_do_execute (s : State) (b : Bool) :
    (state_machine s b).1.do_execute_main_task =
      if s.robot_state = RobotState.EMERGENCY then !s.do_execute_main_task
      else s.do_execute_main_task := by
  unfold state_machine
  cases hst : s.robot_state <;> simp [toggle_do_execute_main_fcn] <;>
    split_ifs <;> rfl

theorem state_machine_servo_enabled (s : State) (b : Bool)
    (hsv : s.servo_D0.isEnabled = true) :
    (state_machine s b).1.servo_D0.isEnabled = true := by
  unfold Servo.isEnabled at *
  unfold state_machine
  cases hst : s.robot_state <;>
    simp [toggle_do_execute_main_fcn, Servo.isEnabled, Servo.setNormalisedPulseWidth, hsv]
  all_goals (try split_ifs)
  all_goals (first | exact hsv | rfl)

theorem state_machine_led1 (s : State) (b : Bool) :
    (state_machine s b).1.led1 = s.led1 := by
  unfold state_machine
  cases hst : s.robot_state <;> simp [toggle_do_execute_main_fcn]
  all_goals (try split_ifs)
  all_goals rfl

theorem state_machine_emergency (s : State) (b : Bool)
    (hst : s.robot_state = RobotState.EMERGENCY) :
    (state_machine s b).1.robot_state = RobotState.EMERGENCY := by
  unfold state_machine
  simp only [hst, toggle_do_execute_main_fcn]
  split_ifs <;> rfl

theorem toggle_robot_state (s : State) :
    (toggle_do_execute_main_fcn s).robot_state = s.robot_state := by
  unfold toggle_do_execute_main_fcn
  simp only
  split_ifs <;> rfl

theorem toggle_latchInv (s : State) : LatchInv (toggle_do_execute_main_fcn s) := by
  unfold LatchInv toggle_do_execute_main_fcn
  cases h : s.do_execute_main_task <;> simp [h]

theorem tick_latchInv (s : State) (i : Input) (h : LatchInv s) : LatchInv (tick s i) := by
  unfold LatchInv at *
  cases hen : s.do_execute_main_task
  · intro h'
    exfalso
    have hf : (tick s i).do_execute_main_task = false := by
      rw [tick_do_execute]
      cases hr : s.do_reset_all_once
      · rw [main_task_disabled_idle s i hen hr]; exact hen
      · rw [main_task_disabled_pending s i hen hr]; exact hen
    rw [hf] at h'
    exact Bool.false_ne_true h'
  · intro _
    show (main_task s i).1.do_reset_all_once = true
    rw [main_task_enabled s i hen, state_machine_do_reset]
    · exact h hen
    · exact hen

theorem step_latchInv (s : State) (e : Event) (h : LatchInv s) : LatchInv (step s e) := by
  cases e with
  | tick i => exact tick_latchInv s i h
  | toggle => exact toggle_latchInv s

theorem run_latchInv (evs : List Event) :
    ∀ s : State, LatchInv s → LatchInv (run s evs) := by
  induction evs with
  | nil => intro s h; exact h
  | cons e es ih => intro s h; exact ih (step s e) (step_latchInv s e h)

theorem reachable_latchInv (s : State) (hr : Reachable s) : LatchInv s := by
  obtain ⟨evs, rfl⟩ := hr
  exact run_latchInv evs init (by intro h; exact absurd h (by decide))

theorem exec_state_reachable : Reachable exec_state := ⟨_, rfl⟩

theorem sleep_state_reachable : Reachable sleep_state :=
  ⟨[Event.toggle, Event.tick { us_read := 30, button := false, elapsed_ms := 3 },
    Event.tick { us_read := 60, button := false, elapsed_ms := 3 }], rfl⟩

theorem emergency_state_reachable : Reachable emergency_state :=
  ⟨[Event.toggle, Event.tick { us_read := 30, button := false, elapsed_ms := 3 },
    Event.tick { us_read := 30, button := true, elapsed_ms := 3 }], rfl⟩

theorem main_task_robot_state_disabled (s : State) (i : Input)
    (hen : s.do_execute_main_task = false) :
    (main_task s i).1.robot_state = s.robot_state := by
  cases hr : s.do_reset_all_once
  · rw [main_task_disabled_idle s i hen hr]
  · rw [main_task_disabled_pending s i hen hr]

theorem main_task_command_disabled (s : State) (i : Input)
    (hen : s.do_execute_main_task = false) :
    (main_task s i).2 = none := by
  cases hr : s.do_reset_all_once
  · rw [main_task_disabled_idle s i hen hr]
  · rw [main_task_disabled_pending s i hen hr]

theorem state_machine_command (s : State) (b : Bool) :
    (state_machine s b).2 =
      if s.robot_state = RobotState.EXECUTION then some (servo_input s.us_distance_cm)
      else none := by
  unfold state_machine
  cases hst : s.robot_state <;> simp

theorem main_loop_body_command (s : State) (i : Input) :
    (main_loop_body s i).2.command =
      if s.do_execute_main_task = true ∧ s.robot_state = RobotState.EXECUTION then
        some (servo_input (read_us_distance i.us_read))
      else none := by
  show (main_task s i).2 = _
  cases hen : s.do_execute_main_task
  · rw [main_task_command_disabled s i hen]
    simp
  · rw [main_task_enabled s i hen, state_machine_command]
    simp

theorem tick_emergency (s : State) (i : Input)
    (hst : s.robot_state = RobotState.EMERGENCY) :
    (tick s i).robot_state = RobotState.EMERGENCY := by
  rw [tick_robot_state]
  cases hen : s.do_execute_main_task
  · rw [main_task_robot_state_disabled s i hen, hst]
  · rw [main_task_enabled s i hen]
    exact state_machine_emergency _ _ hst

theorem step_emergency (s : State) (e : Event)
    (hst : s.robot_state = RobotState.EMERGENCY) :
    (step s e).robot_state = RobotState.EMERGENCY := by
  cases e with
  | tick i => exact tick_emergency s i hst
  | toggle =>
    show (toggle_do_execute_main_fcn s).robot_state = _
    rw [toggle_robot_state, hst]

theorem run_emergency (evs : List Event) :
    ∀ s : State, s.robot_state = RobotState.EMERGENCY →
      (run s evs).robot_state = RobotState.EMERGENCY := by
  induction evs with
  | nil => intro s h; exact h
  | cons e es ih => intro s h; exact ih (step s e) (step_emergency s e h)

theorem wrapInt32_of_range (x : Int) (hlo : -2 ^ 31 ≤ x) (hhi : x < 2 ^ 31) :
    wrapInt32 x = x := by
  unfold wrapInt32
  omega

theorem toggle_of_disabled (s : State) (hen : s.do_execute_main_task = false) :
    toggle_do_execute_main_fcn s =
      { s with do_execute_main_task := true, do_reset_all_once := true } := by
  simp [toggle_do_execute_main_fcn, hen]

theorem toggle_of_enabled (s : State) (hen : s.do_execute_main_task = true) :
    toggle_do_execute_main_fcn s = { s with do_execute_main_task := false } := by
  simp [toggle_do_execute_main_fcn, hen]

theorem main_task_emergency (s : State) (i : Input)
    (hen : s.do_execute_main_task = true)
    (hst : s.robot_state = RobotState.EMERGENCY) :
    main_task s i =
      ({ s with
          led1 := true
          us_distance_cm := read_us_distance i.us_read
          do_execute_main_task := false }, none) := by
  rw [main_task_enabled s i hen]
  simp [state_machine, hst, toggle_do_execute_main_fcn, hen]

theorem main_task_initial (s : State) (i : Input)
    (hen : s.do_execute_main_task = true)
    (hst : s.robot_state = RobotState.INITIAL) :
    main_task s i =
      ({ s with
          led1 := true
          us_distance_cm := read_us_distance i.us_read
          servo_D0 := { s.servo_D0 with enabled := true }
          robot_state := RobotState.EXECUTION }, none) := by
  rw [main_task_enabled s i hen]
  cases hsv : s.servo_D0.enabled <;>
    simp [state_machine, hst, Servo.isEnabled, Servo.enable, hsv]
  rw [← hsv]

theorem stopped_state_reachable : Reachable stopped_state :=
  ⟨[Event.toggle, Event.tick { us_read := 30, button := false, elapsed_ms := 3 },
    Event.tick { us_read := 30, button := true, elapsed_ms := 3 },
    Event.tick { us_read := 30, button := false, elapsed_ms := 3 }], rfl⟩

theorem main_task_execution (s : State) (i : Input)
    (hen : s.do_execute_main_task = true)
    (hst : s.robot_state = RobotState.EXECUTION) :
    main_task s i =
      ({ s with
          led1 := true
          us_distance_cm := read_us_distance i.us_read
          servo_D0 :=
            s.servo_D0.setNormalisedPulseWidth (servo_input (read_us_distance i.us_read))
          robot_state :=
            if i.button = true then RobotState.EMERGENCY
            else if read_us_distance i.us_read < us_distance_min ∨
                read_us_distance i.us_read > us_distance_max then RobotState.SLEEP
            else RobotState.EXECUTION },
        some (servo_input (read_us_distance i.us_read))) := by
  rw [main_task_enabled s i hen]
  simp only [state_machine, hst]
  split_ifs <;> simp_all

theorem main_task_sleep (s : State) (i : Input)
    (hen : s.do_execute_main_task = true)
    (hst : s.robot_state = RobotState.SLEEP) :
    main_task s i =
      ({ s with
          led1 := true
          us_distance_cm := read_us_distance i.us_read
          robot_state :=
            if i.button = true then RobotState.EMERGENCY
            else if read_us_distance i.us_read > us_distance_min ∨
                read_us_distance i.us_read < us_distance_max then RobotState.EXECUTION
            else RobotState.SLEEP }, none) := by
  rw [main_task_enabled s i hen]
  simp only [state_machine, hst]
  split_ifs <;> simp_all

theorem sleep_guard_true (d : ℚ) : d > us_distance_min ∨ d < us_distance_max := by
  unfold us_distance_min us_distance_max
  rcases lt_or_le (7 : ℚ) d with h | h
  · exact Or.inl h
  · exact Or.inr (lt_of_le_of_lt h (by norm_num))

theorem tick_execution_steady (s : State) (i : Input) (d : ℚ)
    (h7 : 7 ≤ d) (h50 : d ≤ 50)
    (hen : s.do_execute_main_task = true)
    (hst : s.robot_state = RobotState.EXECUTION)
    (hd : i.us_read = d) (hb : i.button = false) :
    (tick s i).robot_state = RobotState.EXECUTION ∧
    (tick s i).do_execute_main_task = true ∧
    (main_loop_body s i).2.command = some ((d - 7) / 43) := by
  have hr : read_us_distance i.us_read = d := by
    rw [hd, read_us_distance_eq_max]
    exact max_eq_left (by linarith)
  have hg : ¬ (d < us_distance_min ∨ d > us_distance_max) := by
    unfold us_distance_min us_distance_max
    rintro (h | h) <;> linarith
  have hm := main_task_execution s i hen hst
  rw [hr, hb] at hm
  simp only [if_neg hg, Bool.false_eq_true, if_false] at hm
  refine ⟨?_, ?_, ?_⟩
  · rw [tick_robot_state, hm]
  · rw [tick_do_execute, hm]
    exact hen
  · show (main_task s i).2 = _
    rw [hm, servo_input_eq]

theorem state_machine_us_distance (s : State) (b : Bool) :
    (state_machine s b).1.us_distance_cm = s.us_distance_cm := by
  unfold state_machine
  cases hst : s.robot_state <;> simp [toggle_do_execute_main_fcn]
  all_goals (try split_ifs)
  all_goals rfl

theorem tick_us_distance_enabled (s : State) (i : Input)
    (hen : s.do_execute_main_task = true) :
    (tick s i).us_distance_cm = read_us_distance i.us_read := by
  show (main_task s i).1.us_distance_cm = _
  rw [main_task_enabled s i hen, state_machine_us_distance]

theorem tick_do_reset_enabled (s : State) (i : Input)
    (hen : s.do_execute_main_task = true) :
    (tick s i).do_reset_all_once = s.do_reset_all_once := by
  show (main_task s i).1.do_reset_all_once = _
  rw [main_task_enabled s i hen, state_machine_do_reset]
  exact hen

theorem tick_us_distance_nonneg (s : State) (i : Input) (h : 0 ≤ s.us_distance_cm) :
    0 ≤ (tick s i).us_distance_cm := by
  cases hen : s.do_execute_main_task
  · cases hr : s.do_reset_all_once
    · rw [tick_eq, main_task_disabled_idle s i hen hr]
      exact h
    · rw [tick_eq, main_task_disabled_pending s i hen hr]
  · rw [tick_us_distance_enabled s i hen]
    exact read_us_distance_nonneg _

theorem toggle_us_distance (s : State) :
    (toggle_do_execute_main_fcn s).us_distance_cm = s.us_distance_cm := by
  unfold toggle_do_execute_main_fcn
  simp only
  split_ifs <;> rfl

theorem toggle_servo (s : State) :
    (toggle_do_execute_main_fcn s).servo_D0 = s.servo_D0 := by
  unfold toggle_do_execute_main_fcn
  simp only
  split_ifs <;> rfl

theorem run_us_distance_nonneg (evs : List Event) :
    ∀ s : State, 0 ≤ s.us_distance_cm → 0 ≤ (run s evs).us_distance_cm := by
  induction evs with
  | nil => intro s h; exact h
  | cons e es ih =>
    intro s h
    apply ih (step s e)
    cases e with
    | tick i => exact tick_us_distance_nonneg s i h
    | toggle =>
      show 0 ≤ (toggle_do_execute_main_fcn s).us_distance_cm
      rw [toggle_us_distance]
      exact h

theorem tick_servo_enable_cases (s : State) (i : Input)
    (h : (tick s i).servo_D0.isEnabled = true) :
    s.servo_D0.isEnabled = true ∨
      (s.do_execute_main_task = true ∧ s.robot_state = RobotState.INITIAL) := by
  cases hen : s.do_execute_main_task
  · cases hr : s.do_reset_all_once
    · rw [tick_eq, main_task_disabled_idle s i hen hr] at h
      exact Or.inl h
    · rw [tick_eq, main_task_disabled_pending s i hen hr] at h
      exact absurd h (by simp [Servo.isEnabled, Servo.disable])
  · cases hst : s.robot_state
    · exact Or.inr ⟨rfl, rfl⟩
    · rw [tick_eq, main_task_execution s i hen hst] at h
      exact Or.inl h
    · rw [tick_eq, main_task_sleep s i hen hst] at h
      exact Or.inl h
    · rw [tick_eq, main_task_emergency s i hen hst] at h
      exact Or.inl h

theorem tick_robot_state_ne_initial (s : State) (i : Input)
    (h : s.robot_state ≠ RobotState.INITIAL) :
    (tick s i).robot_state ≠ RobotState.INITIAL := by
  rw [tick_robot_state]
  cases hen : s.do_execute_main_task
  · rw [main_task_robot_state_disabled s i hen]
    exact h
  · cases hst : s.robot_state
    · exact absurd hst h
    · rw [main_task_execution s i hen hst]
      simp only
      split_ifs <;> decide
    · rw [main_task_sleep s i hen hst]
      simp only
      split_ifs <;> decide
    · rw [main_task_emergency s i hen hst]
      simp only
      rw [hst]
      decide

theorem step_robot_state_ne_initial (s : State) (e : Event)
    (h : s.robot_state ≠ RobotState.INITIAL) :
    (step s e).robot_state ≠ RobotState.INITIAL := by
  cases e with
  | tick i => exact tick_robot_state_ne_initial s i h
  | toggle =>
    show (toggle_do_execute_main_fcn s).robot_state ≠ _
    rw [toggle_robot_state]
    exact h

theorem step_servo_enable_cases (s : State) (e : Event)
    (h : (step s e).servo_D0.isEnabled = true) :
    s.servo_D0.isEnabled = true ∨
      ((∃ i : Input, e = Event.tick i) ∧
        s.do_execute_main_task = true ∧ s.robot_state = RobotState.INITIAL) := by
  cases e with
  | tick i =>
    rcases tick_servo_enable_cases s i h with h1 | h1
    · exact Or.inl h1
    · exact Or.inr ⟨⟨i, rfl⟩, h1⟩
  | toggle =>
    have h2 : (toggle_do_execute_main_fcn s).servo_D0.isEnabled = true := h
    rw [toggle_servo] at h2
    exact Or.inl h2

theorem run_servo_stays_disabled (evs : List Event) :
    ∀ s : State, s.robot_state ≠ RobotState.INITIAL → s.servo_D0.isEnabled = false →
      (run s evs).servo_D0.isEnabled = false ∧
      (run s evs).robot_state ≠ RobotState.INITIAL := by
  induction evs with
  | nil => intro s h1 h2; exact ⟨h2, h1⟩
  | cons e es ih =>
    intro s h1 h2
    apply ih (step s e) (step_robot_state_ne_initial s e h1)
    cases hsv : (step s e).servo_D0.isEnabled
    · rfl
    · rcases step_servo_enable_cases s e hsv with h | h
      · rw [h2] at h
        exact absurd h (by decide)
      · exact absurd h.2.2 h1

/-! ## The claims -/

/-- C1. With `us_distance_min = 7` and `us_distance_max = 50` and exact
arithmetic, the command of line 113 equals `(d - min) / (max - min)` for every
distance `d`; an enabled pass in EXECUTION sends exactly this value for the
clamped reading; the value lies strictly between 0 and 1 for `7 < d < 50`, is
0 at `d = 7`, 1 at `d = 50`, and 0.5 at `d = 28.5`. -/
theorem C1_execution_mapping :
    (∀ d : ℚ, servo_input d = (d - us_distance_min) / (us_distance_max - us_distance_min)) ∧
    (∀ (s : State) (i : Input), s.do_execute_main_task = true →
      s.robot_state = RobotState.EXECUTION →
      (main_loop_body s i).2.command
        = some ((read_us_distance i.us_read - us_distance_min)
            / (us_distance_max - us_distance_min))) ∧
    (∀ d : ℚ, 7 < d → d < 50 → 0 < servo_input d ∧ servo_input d < 1) ∧
    servo_input 7 = 0 ∧ servo_input 50 = 1 ∧ servo_input (57 / 2) = 1 / 2 := by
  have key : ∀ d : ℚ,
      servo_input d = (d - us_distance_min) / (us_distance_max - us_distance_min) := by
    intro d
    unfold servo_input us_distance_min us_distance_max
    ring
  refine ⟨key, ?_, ?_, ?_, ?_, ?_⟩
  · intro s i hen hst
    simp [main_loop_body, main_task_enabled s i hen, state_machine, hst, key]
  · intro d h7 h50
    rw [servo_input_eq]
    constructor
    · apply div_pos <;> linarith
    · rw [div_lt_one (by norm_num)]
      linarith
  · rw [servo_input_eq]; norm_num
  · rw [servo_input_eq]; norm_num
  · rw [servo_input_eq]; norm_num

theorem C1_execution_mapping_witness :
    ((7 : ℚ) < 57 / 2 ∧ (57 / 2 : ℚ) < 50) ∧
      (0 < servo_input (57 / 2) ∧ servo_input (57 / 2) < 1) :=
  ⟨by norm_num, C1_execution_mapping.2.2.1 (57 / 2) (by norm_num) (by norm_num)⟩

/-- C2. Emergency precedence: an enabled pass that starts in EXECUTION or in
SLEEP and reads the mechanical button as true ends with `robot_state`
EMERGENCY, whatever the distance reading. -/
theorem C2_emergency_precedence (s : State) (i : Input)
    (hen : s.do_execute_main_task = true)
    (hst : s.robot_state = RobotState.EXECUTION ∨ s.robot_state = RobotState.SLEEP)
    (hb : i.button = true) :
    (tick s i).robot_state = RobotState.EMERGENCY := by
  rw [tick_robot_state, main_task_enabled s i hen]
  rcases hst with hst | hst <;> simp [state_machine, hst, hb]

theorem C2_emergency_precedence_witness :
    (tick exec_state { us_read := 60, button := true, elapsed_ms := 3 }).robot_state
      = RobotState.EMERGENCY :=
  C2_emergency_precedence exec_state _ (by decide) (Or.inl (by decide)) rfl

/-- C3, as the claim states it, fails: the pass that moves `robot_state` from
EXECUTION to EMERGENCY leaves `do_execute_main_task` true. -/
theorem C3_counterexample :
    exec_state.do_execute_main_task = true ∧
    exec_state.robot_state = RobotState.EXECUTION ∧
    (tick exec_state { us_read := 30, button := true, elapsed_ms := 3 }).robot_state
      = RobotState.EMERGENCY ∧
    (tick exec_state { us_read := 30, button := true, elapsed_ms := 3 }).do_execute_main_task
      = true := by
  decide

/-- C3, amended. An enabled pass that starts in EXECUTION or SLEEP and reads
the button as true ends in EMERGENCY with `do_execute_main_task` still true;
the toggle handler is called by the next pass, which (for any inputs) ends
with `do_execute_main_task` false and `robot_state` still EMERGENCY. -/
theorem C3_emergency_disables_on_next_tick (s : State) (i j : Input)
    (hen : s.do_execute_main_task = true)
    (hst : s.robot_state = RobotState.EXECUTION ∨ s.robot_state = RobotState.SLEEP)
    (hb : i.button = true) :
    (tick s i).robot_state = RobotState.EMERGENCY ∧
    (tick s i).do_execute_main_task = true ∧
    (tick (tick s i) j).do_execute_main_task = false ∧
    (tick (tick s i) j).robot_state = RobotState.EMERGENCY := by
  have h1 : (tick s i).robot_state = RobotState.EMERGENCY := by
    rw [tick_robot_state, main_task_enabled s i hen]
    rcases hst with hst | hst <;> simp [state_machine, hst, hb]
  have h2 : (tick s i).do_execute_main_task = true := by
    rw [tick_do_execute, main_task_enabled s i hen]
    rcases hst with hst | hst <;> simp [state_machine, hst, hb] <;> split_ifs <;> exact hen
  refine ⟨h1, h2, ?_, ?_⟩
  · rw [tick_do_execute, main_task_enabled _ j h2]
    simp [state_machine, h1, h2, toggle_do_execute_main_fcn]
  · rw [tick_robot_state, main_task_enabled _ j h2]
    simp [state_machine, h1, h2, toggle_do_execute_main_fcn]

theorem C3_emergency_disables_on_next_tick_witness :
    (tick sleep_state { us_read := 30, button := true, elapsed_ms := 3 }).robot_state
      = RobotState.EMERGENCY ∧
    (tick sleep_state { us_read := 30, button := true, elapsed_ms := 3 }).do_execute_main_task
      = true ∧
    (tick (tick sleep_state { us_read := 30, button := true, elapsed_ms := 3 })
      { us_read := 30, button := false, elapsed_ms := 3 }).do_execute_main_task = false ∧
    (tick (tick sleep_state { us_read := 30, button := true, elapsed_ms := 3 })
      { us_read := 30, button := false, elapsed_ms := 3 }).robot_state
      = RobotState.EMERGENCY :=
  C3_emergency_disables_on_next_tick sleep_state _ _ (by decide) (Or.inr (by decide)) rfl

/-- C4. Range guard of EXECUTION: an enabled pass that starts in EXECUTION and
reads the button as false stores the clamped reading `d`, ends in SLEEP if and
only if `d < 7` or `d > 50`, and ends in EXECUTION otherwise (so also at
`d = 7` and `d = 50`). A raw reading of -3 is clamped to 0 and the pass ends
in SLEEP. -/
theorem C4_range_guard :
    (∀ (s : State) (i : Input), s.do_execute_main_task = true →
      s.robot_state = RobotState.EXECUTION → i.button = false →
      (tick s i).us_distance_cm = read_us_distance i.us_read ∧
      ((tick s i).robot_state = RobotState.SLEEP ↔
        (read_us_distance i.us_read < 7 ∨ read_us_distance i.us_read > 50)) ∧
      (¬ (read_us_distance i.us_read < 7 ∨ read_us_distance i.us_read > 50) →
        (tick s i).robot_state = RobotState.EXECUTION)) ∧
    (∀ (s : State) (e : Int), s.do_execute_main_task = true →
      s.robot_state = RobotState.EXECUTION →
      (tick s { us_read := 7, button := false, elapsed_ms := e }).robot_state
        = RobotState.EXECUTION ∧
      (tick s { us_read := 50, button := false, elapsed_ms := e }).robot_state
        = RobotState.EXECUTION ∧
      (tick s { us_read := -3, button := false, elapsed_ms := e }).us_distance_cm = 0 ∧
      (tick s { us_read := -3, button := false, elapsed_ms := e }).robot_state
        = RobotState.SLEEP) := by
  have main : ∀ (s : State) (i : Input), s.do_execute_main_task = true →
      s.robot_state = RobotState.EXECUTION → i.button = false →
      (tick s i).us_distance_cm = read_us_distance i.us_read ∧
      ((tick s i).robot_state = RobotState.SLEEP ↔
        (read_us_distance i.us_read < 7 ∨ read_us_distance i.us_read > 50)) ∧
      (¬ (read_us_distance i.us_read < 7 ∨ read_us_distance i.us_read > 50) →
        (tick s i).robot_state = RobotState.EXECUTION) := by
    intro s i hen hst hb
    have hus : (tick s i).us_distance_cm = read_us_distance i.us_read := by
      show (main_task s i).1.us_distance_cm = _
      rw [main_task_enabled s i hen]
      simp only [state_machine, hst, hb]
      split_ifs <;> rfl
    have hrs : (tick s i).robot_state =
        if read_us_distance i.us_read < 7 ∨ read_us_distance i.us_read > 50 then
          RobotState.SLEEP else RobotState.EXECUTION := by
      rw [tick_robot_state, main_task_enabled s i hen]
      simp only [state_machine, hst, hb, us_distance_min, us_distance_max]
      split_ifs <;> simp_all
    refine ⟨hus, ?_, ?_⟩
    · rw [hrs]
      split_ifs with h <;> simp [h]
    · intro h
      rw [hrs, if_neg h]
  refine ⟨main, ?_⟩
  intro s e hen hst
  have h7 := main s { us_read := 7, button := false, elapsed_ms := e } hen hst rfl
  have h50 := main s { us_read := 50, button := false, elapsed_ms := e } hen hst rfl
  have h3 := main s { us_read := -3, button := false, elapsed_ms := e } hen hst rfl
  have r7 : read_us_distance 7 = 7 := by norm_num [read_us_distance]
  have r50 : read_us_distance 50 = 50 := by norm_num [read_us_distance]
  have r3 : read_us_distance (-3) = 0 := by norm_num [read_us_distance]
  simp only [r7, r50, r3] at h7 h50 h3
  refine ⟨h7.2.2 (by norm_num), h50.2.2 (by norm_num), h3.1, h3.2.1.mpr (by norm_num)⟩

theorem C4_range_guard_witness :
    (tick exec_state { us_read := -3, button := false, elapsed_ms := 3 }).us_distance_cm
        = read_us_distance (-3) ∧
      ((tick exec_state { us_read := -3, button := false, elapsed_ms := 3 }).robot_state
          = RobotState.SLEEP ↔
        (read_us_distance (-3) < 7 ∨ read_us_distance (-3) > 50)) ∧
      (¬ (read_us_distance (-3) < 7 ∨ read_us_distance (-3) > 50) →
        (tick exec_state { us_read := -3, button := false, elapsed_ms := 3 }).robot_state
          = RobotState.EXECUTION) :=
  C4_range_guard.1 exec_state { us_read := -3, button := false, elapsed_ms := 3 }
    (by decide) (by decide) rfl

/-- C5. Toggle latch: `toggle_do_execute_main_fcn` negates
`do_execute_main_task`; it sets `do_reset_all_once` to true when the new
`do_execute_main_task` is true and leaves it unchanged when the new value is
false; every other variable keeps its value. -/
theorem C5_toggle_latch (s : State) :
    (toggle_do_execute_main_fcn s).do_execute_main_task = !s.do_execute_main_task ∧
    ((toggle_do_execute_main_fcn s).do_execute_main_task = true →
      (toggle_do_execute_main_fcn s).do_reset_all_once = true) ∧
    ((toggle_do_execute_main_fcn s).do_execute_main_task = false →
      (toggle_do_execute_main_fcn s).do_reset_all_once = s.do_reset_all_once) ∧
    (toggle_do_execute_main_fcn s).robot_state = s.robot_state ∧
    (toggle_do_execute_main_fcn s).us_distance_cm = s.us_distance_cm ∧
    (toggle_do_execute_main_fcn s).servo_D0 = s.servo_D0 ∧
    (toggle_do_execute_main_fcn s).led1 = s.led1 ∧
    (toggle_do_execute_main_fcn s).user_led = s.user_led := by
  unfold toggle_do_execute_main_fcn
  cases h : s.do_execute_main_task <;> simp [h]

theorem C5_toggle_latch_witness :
    (toggle_do_execute_main_fcn init).do_reset_all_once = true ∧
    (toggle_do_execute_main_fcn exec_state).do_reset_all_once
      = exec_state.do_reset_all_once :=
  ⟨(C5_toggle_latch init).2.1 (by decide), (C5_toggle_latch exec_state).2.2.1 (by decide)⟩

/-- C6. One-shot reset: from a reachable state with `do_execute_main_task`
true and `robot_state` EXECUTION, a toggle followed by a pass runs the reset
body: afterwards `us_distance_cm` is 0, the servo is disabled, `led1` is 0 and
`do_reset_all_once` is false (and `robot_state` is still EXECUTION); a second
disabled pass directly after it sends no command and changes nothing except
`user_led`. -/
theorem C6_one_shot_reset (s : State) (i j : Input) (hr : Reachable s)
    (hen : s.do_execute_main_task = true)
    (hst : s.robot_state = RobotState.EXECUTION) :
    (tick (toggle_do_execute_main_fcn s) i).us_distance_cm = 0 ∧
    (tick (toggle_do_execute_main_fcn s) i).servo_D0.isEnabled = false ∧
    (tick (toggle_do_execute_main_fcn s) i).led1 = false ∧
    (tick (toggle_do_execute_main_fcn s) i).do_reset_all_once = false ∧
    (tick (toggle_do_execute_main_fcn s) i).do_execute_main_task = false ∧
    (tick (toggle_do_execute_main_fcn s) i).robot_state = RobotState.EXECUTION ∧
    (main_loop_body (tick (toggle_do_execute_main_fcn s) i) j).2.command = none ∧
    tick (tick (toggle_do_execute_main_fcn s) i) j =
      { tick (toggle_do_execute_main_fcn s) i with
        user_led := !(tick (toggle_do_execute_main_fcn s) i).user_led } := by
  have hpend : s.do_reset_all_once = true := reachable_latchInv s hr hen
  have ht : toggle_do_execute_main_fcn s = { s with do_execute_main_task := false } := by
    simp [toggle_do_execute_main_fcn, hen]
  have h1 : tick (toggle_do_execute_main_fcn s) i =
      { s with
        do_execute_main_task := false
        do_reset_all_once := false
        led1 := false
        servo_D0 := s.servo_D0.disable
        us_distance_cm := 0
        user_led := !s.user_led } := by
    rw [ht]
    simp [tick, main_loop_body, main_task, hpend]
  have h2 : main_task (tick (toggle_do_execute_main_fcn s) i) j
      = (tick (toggle_do_execute_main_fcn s) i, none) := by
    apply main_task_disabled_idle <;> rw [h1]
  refine ⟨by rw [h1], by rw [h1]; rfl, by rw [h1], by rw [h1], by rw [h1],
    by rw [h1]; exact hst, ?_, ?_⟩
  · show (main_task _ j).2 = none
    rw [h2]
  · rw [tick_eq (tick (toggle_do_execute_main_fcn s) i) j, h2]

theorem C6_one_shot_reset_witness :
    (tick (toggle_do_execute_main_fcn exec_state)
        { us_read := 30, button := false, elapsed_ms := 3 }).us_distance_cm = 0 ∧
    (tick (toggle_do_execute_main_fcn exec_state)
        { us_read := 30, button := false, elapsed_ms := 3 }).servo_D0.isEnabled = false :=
  have h := C6_one_shot_reset exec_state
    { us_read := 30, button := false, elapsed_ms := 3 }
    { us_read := 30, button := false, elapsed_ms := 3 }
    exec_state_reachable (by decide) (by decide)
  ⟨h.1, h.2.1⟩

/-- C7. The reset never fires while enabled: a pass that starts with
`do_execute_main_task` true leaves `do_reset_all_once` as it was, does not
disable the servo and ends with `led1` set, in every `robot_state` and for all
inputs. From the initial state a toggle sets `do_reset_all_once`, and the pass
that follows runs the state machine from INITIAL: it ends in EXECUTION with the
servo enabled and `do_reset_all_once` still true. -/
theorem C7_reset_not_while_enabled :
    (∀ (s : State) (i : Input), s.do_execute_main_task = true →
      (tick s i).do_reset_all_once = s.do_reset_all_once ∧
      (s.servo_D0.isEnabled = true → (tick s i).servo_D0.isEnabled = true) ∧
      (tick s i).led1 = true) ∧
    (toggle_do_execute_main_fcn init).do_execute_main_task = true ∧
    (toggle_do_execute_main_fcn init).do_reset_all_once = true ∧
    (toggle_do_execute_main_fcn init).robot_state = RobotState.INITIAL ∧
    (∀ i : Input,
      (tick (toggle_do_execute_main_fcn init) i).robot_state = RobotState.EXECUTION ∧
      (tick (toggle_do_execute_main_fcn init) i).servo_D0.isEnabled = true ∧
      (tick (toggle_do_execute_main_fcn init) i).do_reset_all_once = true ∧
      (tick (toggle_do_execute_main_fcn init) i).do_execute_main_task = true) := by
  refine ⟨?_, by decide, by decide, by decide, ?_⟩
  · intro s i hen
    refine ⟨?_, ?_, ?_⟩
    · show (main_task s i).1.do_reset_all_once = _
      rw [main_task_enabled s i hen, state_machine_do_reset]
      exact hen
    · intro hsv
      show (main_task s i).1.servo_D0.isEnabled = true
      rw [main_task_enabled s i hen]
      exact state_machine_servo_enabled _ _ hsv
    · show (main_task s i).1.led1 = true
      rw [main_task_enabled s i hen, state_machine_led1]
  · intro i
    simp [tick, main_loop_body, main_task, state_machine, toggle_do_execute_main_fcn, init,
      Servo.isEnabled, Servo.enable]

theorem C7_reset_not_while_enabled_witness :
    (tick exec_state { us_read := 30, button := true, elapsed_ms := 3 }).do_reset_all_once
        = exec_state.do_reset_all_once ∧
      (exec_state.servo_D0.isEnabled = true →
        (tick exec_state
          { us_read := 30, button := true, elapsed_ms := 3 }).servo_D0.isEnabled = true) ∧
      (tick exec_state { us_read := 30, button := true, elapsed_ms := 3 }).led1 = true :=
  C7_reset_not_while_enabled.1 exec_state
    { us_read := 30, button := true, elapsed_ms := 3 } (by decide)

/-- C8, as the claim states it, fails: in a reachable enabled state in
EXECUTION a reading of 0 makes the pass send a command below 0 (in exact
arithmetic the value of line 113 at 0, which is -7/43). -/
theorem C8_counterexample :
    Reachable exec_state ∧
    (main_loop_body exec_state { us_read := 0, button := false, elapsed_ms := 3 }).2.command
      = some (-7 / 43) ∧
    ¬ ((0 : ℚ) ≤ -7 / 43 ∧ (-7 / 43 : ℚ) ≤ 1) := by
  refine ⟨exec_state_reachable, ?_, by norm_num⟩
  rw [main_loop_body_command, if_pos (by decide), servo_input_eq]
  norm_num [read_us_distance]

/-- C8, amended. With exact (rational) arithmetic: a pass sends a command only
when it starts enabled and in EXECUTION, and for every sensor reading `r`
whose clamped value `d = max(r, 0)` satisfies `7 ≤ d ≤ 50` the command `c` it
sends satisfies `0 ≤ c ≤ 1`. -/
theorem C8_command_range (s : State) (i : Input) (c : ℚ)
    (hc : (main_loop_body s i).2.command = some c) :
    s.do_execute_main_task = true ∧
    s.robot_state = RobotState.EXECUTION ∧
    (7 ≤ max i.us_read 0 → max i.us_read 0 ≤ 50 → 0 ≤ c ∧ c ≤ 1) := by
  rw [main_loop_body_command] at hc
  split_ifs at hc with h
  have hceq : c = (max i.us_read 0 - 7) / 43 := by
    rw [← read_us_distance_eq_max, ← servo_input_eq]
    exact (Option.some.inj hc).symm
  refine ⟨h.1, h.2, ?_⟩
  intro h7 h50
  rw [hceq]
  constructor
  · apply div_nonneg <;> linarith
  · rw [div_le_one (by norm_num)]
    linarith

theorem C8_command_range_witness :
    ((7 : ℚ) ≤ max (57 / 2) 0 ∧ (max (57 / 2) 0 : ℚ) ≤ 50) ∧
    exec_state.do_execute_main_task = true ∧
    exec_state.robot_state = RobotState.EXECUTION ∧
    ((0 : ℚ) ≤ 1 / 2 ∧ (1 / 2 : ℚ) ≤ 1) :=
  have h := C8_command_range exec_state
    { us_read := 57 / 2, button := false, elapsed_ms := 3 } (1 / 2)
    (by
      rw [main_loop_body_command, if_pos (by decide), servo_input_eq]
      norm_num [read_us_distance])
  have h7 : (7 : ℚ) ≤ max (57 / 2) 0 := by norm_num
  have h50 : (max (57 / 2) 0 : ℚ) ≤ 50 := by norm_num
  ⟨⟨h7, h50⟩, h.1, h.2.1, h.2.2 h7 h50⟩

/-- C9, as the claim states it, fails: with 21 ms elapsed the pass requests a
sleep of -1, not `max(0, 20 - 21) = 0`. -/
theorem C9_counterexample :
    (main_loop_body init { us_read := 0, button := false, elapsed_ms := 21 }).2.sleep_ms = -1 ∧
    max 0 (main_task_period_ms - 21) = 0 := by
  decide

/-- C9, amended. For an elapsed time `e` with `0 ≤ e ≤ 20` the value the pass
hands to the end-of-tick sleep is `20 - e`, which equals `max(0, 20 - e)`; it
is 0 at `e = 20`. There is no clamp: for `20 < e < 2^31` the value handed
over is the negative `int` `20 - e`. -/
theorem C9_sleep_request (s : State) (i : Input) :
    (0 ≤ i.elapsed_ms → i.elapsed_ms ≤ main_task_period_ms →
      (main_loop_body s i).2.sleep_ms = max 0 (main_task_period_ms - i.elapsed_ms)) ∧
    (i.elapsed_ms = main_task_period_ms → (main_loop_body s i).2.sleep_ms = 0) ∧
    (main_task_period_ms < i.elapsed_ms → i.elapsed_ms < 2 ^ 31 →
      (main_loop_body s i).2.sleep_ms = main_task_period_ms - i.elapsed_ms ∧
      (main_loop_body s i).2.sleep_ms < 0) := by
  have hs : (main_loop_body s i).2.sleep_ms
      = wrapInt32 (main_task_period_ms - i.elapsed_ms) := rfl
  rw [hs]
  unfold main_task_period_ms
  refine ⟨?_, ?_, ?_⟩
  · intro h0 h20
    rw [wrapInt32_of_range _ (by omega) (by omega)]
    omega
  · intro h
    rw [h]
    decide
  · intro h20 hmax
    rw [wrapInt32_of_range _ (by omega) (by omega)]
    omega

theorem C9_sleep_request_witness :
    (main_loop_body init { us_read := 0, button := false, elapsed_ms := 3 }).2.sleep_ms
        = max 0 (main_task_period_ms - 3) ∧
    (main_loop_body init { us_read := 0, button := false, elapsed_ms := 20 }).2.sleep_ms = 0 ∧
    ((main_loop_body init { us_read := 0, button := false, elapsed_ms := 25 }).2.sleep_ms
        = main_task_period_ms - 25 ∧
      (main_loop_body init { us_read := 0, button := false, elapsed_ms := 25 }).2.sleep_ms < 0) :=
  ⟨(C9_sleep_request init { us_read := 0, button := false, elapsed_ms := 3 }).1
      (by decide) (by decide),
    (C9_sleep_request init { us_read := 0, button := false, elapsed_ms := 20 }).2.1 rfl,
    (C9_sleep_request init { us_read := 0, button := false, elapsed_ms := 25 }).2.2
      (by decide) (by decide)⟩

/-- C10. EMERGENCY is terminal: from a state with `robot_state` EMERGENCY no
tick (with any inputs) and no toggle changes `robot_state`, so it is EMERGENCY
after every finite sequence of ticks and toggles. -/
theorem C10_emergency_terminal (s : State)
    (hst : s.robot_state = RobotState.EMERGENCY) :
    (∀ e : Event, (step s e).robot_state = RobotState.EMERGENCY) ∧
    (∀ evs : List Event, (run s evs).robot_state = RobotState.EMERGENCY) :=
  ⟨fun e => step_emergency s e hst, fun evs => run_emergency evs s hst⟩

theorem C10_emergency_terminal_witness :
    (run emergency_state
      [Event.tick { us_read := 30, button := false, elapsed_ms := 3 },
       Event.tick { us_read := 30, button := false, elapsed_ms := 3 },
       Event.toggle,
       Event.tick { us_read := 30, button := false, elapsed_ms := 3 }]).robot_state
      = RobotState.EMERGENCY :=
  (C10_emergency_terminal emergency_state (by decide)).2 _

/-- C11. No recovery from EMERGENCY by re-enabling: from a state with
`robot_state` EMERGENCY and `do_execute_main_task` false, a toggle sets
`do_execute_main_task`, and the pass that follows (any inputs) ends with
`do_execute_main_task` false, `robot_state` EMERGENCY and `do_reset_all_once`
true; that pass sends no command to the servo and leaves the servo as it
was, so it does not enable it. -/
theorem C11_no_recovery_from_emergency (s : State) (i : Input)
    (hst : s.robot_state = RobotState.EMERGENCY)
    (hen : s.do_execute_main_task = false) :
    (toggle_do_execute_main_fcn s).do_execute_main_task = true ∧
    (tick (toggle_do_execute_main_fcn s) i).do_execute_main_task = false ∧
    (tick (toggle_do_execute_main_fcn s) i).robot_state = RobotState.EMERGENCY ∧
    (tick (toggle_do_execute_main_fcn s) i).do_reset_all_once = true ∧
    (main_loop_body (toggle_do_execute_main_fcn s) i).2.command = none ∧
    (tick (toggle_do_execute_main_fcn s) i).servo_D0 = s.servo_D0 := by
  have hm := main_task_emergency (toggle_do_execute_main_fcn s) i
    (by rw [toggle_of_disabled s hen]) (by rw [toggle_robot_state, hst])
  have ht : tick (toggle_do_execute_main_fcn s) i =
      { s with
        led1 := true
        us_distance_cm := read_us_distance i.us_read
        do_execute_main_task := false
        do_reset_all_once := true
        user_led := !s.user_led } := by
    rw [tick_eq, hm, toggle_of_disabled s hen]
  refine ⟨by rw [toggle_of_disabled s hen], by rw [ht], by rw [ht]; exact hst,
    by rw [ht], ?_, by rw [ht]⟩
  show (main_task (toggle_do_execute_main_fcn s) i).2 = none
  rw [hm]

theorem C11_no_recovery_from_emergency_witness :
    (tick (toggle_do_execute_main_fcn stopped_state)
        { us_read := 30, button := false, elapsed_ms := 3 }).do_execute_main_task = false ∧
    (tick (toggle_do_execute_main_fcn stopped_state)
        { us_read := 30, button := false, elapsed_ms := 3 }).robot_state
      = RobotState.EMERGENCY :=
  have h := C11_no_recovery_from_emergency stopped_state
    { us_read := 30, button := false, elapsed_ms := 3 } (by decide) (by decide)
  ⟨h.2.1, h.2.2.1⟩

/-- C12. Steady in-range operation is stable: for `7 ≤ d ≤ 50`, starting
enabled in EXECUTION, a run of passes that all read the distance `d` and the
button as false (no toggle in between) has `robot_state` EXECUTION and
`do_execute_main_task` true after every pass, and every pass sends the same
command `(d - 7) / 43`. -/
theorem C12_steady_in_range (d : ℚ) (h7 : 7 ≤ d) (h50 : d ≤ 50) (is : List Input)
    (his : ∀ i ∈ is, i.us_read = d ∧ i.button = false) :
    ∀ s : State, s.do_execute_main_task = true →
      s.robot_state = RobotState.EXECUTION →
      (∀ s1 ∈ tick_states s is,
        s1.robot_state = RobotState.EXECUTION ∧ s1.do_execute_main_task = true) ∧
      tick_commands s is = List.replicate is.length (some ((d - 7) / 43)) := by
  induction is with
  | nil =>
    intro s _ _
    exact ⟨fun s1 h1 => absurd h1 (List.not_mem_nil s1), rfl⟩
  | cons i rest ih =>
    intro s hen hst
    obtain ⟨hd, hb⟩ := his i (List.mem_cons_self i rest)
    obtain ⟨hs1, he1, hc1⟩ := tick_execution_steady s i d h7 h50 hen hst hd hb
    obtain ⟨ihs, ihc⟩ :=
      ih (fun j hj => his j (List.mem_cons_of_mem i hj)) (tick s i) he1 hs1
    refine ⟨?_, ?_⟩
    · intro s1 h1
      rcases List.mem_cons.mp h1 with h | h
      · rw [h]
        exact ⟨hs1, he1⟩
      · exact ihs s1 h
    · show (main_loop_body s i).2.command :: tick_commands (tick s i) rest = _
      rw [hc1, ihc]
      rfl

theorem C12_steady_in_range_witness :
    (∀ s1 ∈ tick_states exec_state
        (List.replicate 3 { us_read := 57 / 2, button := false, elapsed_ms := 3 }),
      s1.robot_state = RobotState.EXECUTION ∧ s1.do_execute_main_task = true) ∧
    tick_commands exec_state
        (List.replicate 3 { us_read := 57 / 2, button := false, elapsed_ms := 3 })
      = List.replicate
          (List.replicate 3
            ({ us_read := 57 / 2, button := false, elapsed_ms := 3 } : Input)).length
          (some ((57 / 2 - 7) / 43)) :=
  C12_steady_in_range (57 / 2) (by norm_num) (by norm_num)
    (List.replicate 3 { us_read := 57 / 2, button := false, elapsed_ms := 3 })
    (fun i hi => by rw [List.eq_of_mem_replicate hi]; exact ⟨rfl, rfl⟩)
    exec_state (by decide) (by decide)

/-- C13. The SLEEP re-entry guard is a tautology: for every distance `d` the
guard `d > 7 ∨ d < 50` of line 128 is true, so every enabled pass that starts
in SLEEP and reads the button as false ends in EXECUTION, whatever the
reading; hence no enabled pass that starts in SLEEP ends in SLEEP. -/
theorem C13_sleep_guard_tautology :
    (∀ d : ℚ, d > us_distance_min ∨ d < us_distance_max) ∧
    (∀ (s : State) (i : Input), s.do_execute_main_task = true →
      s.robot_state = RobotState.SLEEP → i.button = false →
      (tick s i).robot_state = RobotState.EXECUTION) ∧
    (∀ (s : State) (i : Input), s.do_execute_main_task = true →
      s.robot_state = RobotState.SLEEP →
      (tick s i).robot_state ≠ RobotState.SLEEP) := by
  have key : ∀ (s : State) (i : Input), s.do_execute_main_task = true →
      s.robot_state = RobotState.SLEEP →
      (tick s i).robot_state =
        if i.button = true then RobotState.EMERGENCY else RobotState.EXECUTION := by
    intro s i hen hst
    rw [tick_robot_state, main_task_sleep s i hen hst]
    simp only [if_pos (sleep_guard_true _)]
  refine ⟨sleep_guard_true, ?_, ?_⟩
  · intro s i hen hst hb
    rw [key s i hen hst, hb]
    rfl
  · intro s i hen hst
    rw [key s i hen hst]
    split_ifs <;> decide

theorem C13_sleep_guard_tautology_witness :
    (tick sleep_state { us_read := 60, button := false, elapsed_ms := 3 }).robot_state
      = RobotState.EXECUTION ∧
    (tick sleep_state { us_read := 60, button := true, elapsed_ms := 3 }).robot_state
      ≠ RobotState.SLEEP :=
  ⟨C13_sleep_guard_tautology.2.1 sleep_state
      { us_read := 60, button := false, elapsed_ms := 3 } (by decide) (by decide) rfl,
    C13_sleep_guard_tautology.2.2 sleep_state
      { us_read := 60, button := true, elapsed_ms := 3 } (by decide) (by decide)⟩

/-- C14. INITIAL step: an enabled pass that starts in INITIAL ends, for every
distance reading and every button level, with `robot_state` EXECUTION and the
servo enabled; it sends no command to the servo and leaves
`do_execute_main_task` and `do_reset_all_once` unchanged. -/
theorem C14_initial_step (s : State) (i : Input)
    (hen : s.do_execute_main_task = true)
    (hst : s.robot_state = RobotState.INITIAL) :
    (tick s i).robot_state = RobotState.EXECUTION ∧
    (tick s i).servo_D0.isEnabled = true ∧
    (main_loop_body s i).2.command = none ∧
    (tick s i).servo_D0.pulse = s.servo_D0.pulse ∧
    (tick s i).do_execute_main_task = s.do_execute_main_task ∧
    (tick s i).do_reset_all_once = s.do_reset_all_once := by
  have hm := main_task_initial s i hen hst
  have ht : tick s i =
      { s with
        led1 := true
        us_distance_cm := read_us_distance i.us_read
        servo_D0 := { s.servo_D0 with enabled := true }
        robot_state := RobotState.EXECUTION
        user_led := !s.user_led } := by
    rw [tick_eq, hm]
  refine ⟨by rw [ht], by rw [ht]; rfl, ?_, by rw [ht], by rw [ht], by rw [ht]⟩
  show (main_task s i).2 = none
  rw [hm]

theorem C14_initial_step_witness :
    (tick (toggle_do_execute_main_fcn init)
        { us_read := 3, button := true, elapsed_ms := 3 }).robot_state
      = RobotState.EXECUTION ∧
    (tick (toggle_do_execute_main_fcn init)
        { us_read := 3, button := true, elapsed_ms := 3 }).servo_D0.isEnabled = true :=
  have h := C14_initial_step (toggle_do_execute_main_fcn init)
    { us_read := 3, button := true, elapsed_ms := 3 } (by decide) (by decide)
  ⟨h.1, h.2.1⟩

/-- C15. EMERGENCY leads to cleanup: from a reachable state with
`do_execute_main_task` true and `robot_state` EMERGENCY, the first pass flips
`do_execute_main_task` to false and leaves `do_reset_all_once` true; the
second pass (no toggle in between, any inputs) runs the one-shot reset and
ends with both flags false, the servo disabled, `us_distance_cm` 0 and `led1`
0. -/
theorem C15_emergency_cleanup (s : State) (i j : Input) (hr : Reachable s)
    (hen : s.do_execute_main_task = true)
    (hst : s.robot_state = RobotState.EMERGENCY) :
    (tick s i).do_execute_main_task = false ∧
    (tick s i).do_reset_all_once = true ∧
    (tick (tick s i) j).do_execute_main_task = false ∧
    (tick (tick s i) j).do_reset_all_once = false ∧
    (tick (tick s i) j).servo_D0.isEnabled = false ∧
    (tick (tick s i) j).us_distance_cm = 0 ∧
    (tick (tick s i) j).led1 = false ∧
    (tick (tick s i) j).robot_state = RobotState.EMERGENCY := by
  have hpend : s.do_reset_all_once = true := reachable_latchInv s hr hen
  have h1 : tick s i =
      { s with
        led1 := true
        us_distance_cm := read_us_distance i.us_read
        do_execute_main_task := false
        user_led := !s.user_led } := by
    rw [tick_eq, main_task_emergency s i hen hst]
  have he : (tick s i).do_execute_main_task = false := by rw [h1]
  have hp : (tick s i).do_reset_all_once = true := by rw [h1]; exact hpend
  have h2 : tick (tick s i) j =
      { tick s i with
        do_reset_all_once := false
        led1 := false
        servo_D0 := (tick s i).servo_D0.disable
        us_distance_cm := 0
        user_led := !(tick s i).user_led } := by
    rw [tick_eq (tick s i) j, main_task_disabled_pending (tick s i) j he hp]
  refine ⟨he, hp, ?_, ?_, ?_, ?_, ?_, ?_⟩
  · rw [h2]; exact he
  · rw [h2]
  · rw [h2]; rfl
  · rw [h2]
  · rw [h2]
  · rw [h2, h1]; exact hst

theorem C15_emergency_cleanup_witness :
    (tick emergency_state
        { us_read := 30, button := false, elapsed_ms := 3 }).do_execute_main_task = false ∧
    (tick (tick emergency_state { us_read := 30, button := false, elapsed_ms := 3 })
        { us_read := 30, button := false, elapsed_ms := 3 }).us_distance_cm = 0 :=
  have h := C15_emergency_cleanup emergency_state
    { us_read := 30, button := false, elapsed_ms := 3 }
    { us_read := 30, button := false, elapsed_ms := 3 }
    emergency_state_reachable (by decide) (by decide)
  ⟨h.1, h.2.2.2.2.2.1⟩

/-- C16. Disabled passes do not touch the state machine: a pass that starts
with `do_execute_main_task` false leaves `robot_state`,
`do_execute_main_task` and the last servo command unchanged and sends no
command, whether or not the reset body runs; its resulting state, command and
printed value do not depend on the inputs of the pass; and a toggle after it
re-enables the task with `robot_state` as it was before the pass. -/
theorem C16_disabled_tick_frame (s : State) (i j : Input)
    (hen : s.do_execute_main_task = false) :
    (tick s i).robot_state = s.robot_state ∧
    (tick s i).do_execute_main_task = false ∧
    (tick s i).servo_D0.pulse = s.servo_D0.pulse ∧
    (main_loop_body s i).2.command = none ∧
    tick s i = tick s j ∧
    (main_loop_body s i).2.command = (main_loop_body s j).2.command ∧
    (main_loop_body s i).2.printed = (main_loop_body s j).2.printed ∧
    (toggle_do_execute_main_fcn (tick s i)).do_execute_main_task = true ∧
    (toggle_do_execute_main_fcn (tick s i)).robot_state = s.robot_state := by
  have hm : main_task s i = main_task s j := by
    cases hr : s.do_reset_all_once
    · rw [main_task_disabled_idle s i hen hr, main_task_disabled_idle s j hen hr]
    · rw [main_task_disabled_pending s i hen hr, main_task_disabled_pending s j hen hr]
  have hrs : (tick s i).robot_state = s.robot_state := by
    rw [tick_robot_state, main_task_robot_state_disabled s i hen]
  have hde : (tick s i).do_execute_main_task = false := by
    rw [tick_do_execute]
    cases hr : s.do_reset_all_once
    · rw [main_task_disabled_idle s i hen hr]; exact hen
    · rw [main_task_disabled_pending s i hen hr]; exact hen
  have hij : tick s i = tick s j := by rw [tick_eq, tick_eq, hm]
  refine ⟨hrs, hde, ?_, main_task_command_disabled s i hen, hij, ?_, ?_, ?_, ?_⟩
  · cases hr : s.do_reset_all_once
    · rw [tick_eq, main_task_disabled_idle s i hen hr]
    · rw [tick_eq, main_task_disabled_pending s i hen hr]
      rfl
  · show (main_task s i).2 = (main_task s j).2
    rw [hm]
  · show (tick s i).us_distance_cm = (tick s j).us_distance_cm
    rw [hij]
  · rw [toggle_of_disabled _ hde]
  · rw [toggle_robot_state, hrs]

theorem C16_disabled_tick_frame_witness :
    (tick stopped_state { us_read := 30, button := false, elapsed_ms := 3 }).robot_state
      = stopped_state.robot_state ∧
    tick stopped_state { us_read := 30, button := false, elapsed_ms := 3 }
      = tick stopped_state { us_read := 99, button := true, elapsed_ms := 5 } :=
  have h := C16_disabled_tick_frame stopped_state
    { us_read := 30, button := false, elapsed_ms := 3 }
    { us_read := 99, button := true, elapsed_ms := 5 } (by decide)
  ⟨h.1, h.2.2.2.2.1⟩

/-- C17. The stored distance is never negative: in every state reachable from
the initial state by ticks (with arbitrary raw readings) and toggles,
`us_distance_cm ≥ 0`. On an enabled pass with raw reading `r` the state
machine runs on `us_distance_cm = max(r, 0)`, the pass stores and prints
`max(r, 0)`, and that value is `r` whenever `r ≥ 0`. -/
theorem C17_distance_nonneg :
    (∀ s : State, Reachable s → 0 ≤ s.us_distance_cm) ∧
    (∀ (s : State) (i : Input), s.do_execute_main_task = true →
      main_task s i =
        state_machine { s with led1 := true, us_distance_cm := max i.us_read 0 } i.button ∧
      (tick s i).us_distance_cm = max i.us_read 0 ∧
      (main_loop_body s i).2.printed = max i.us_read 0 ∧
      (0 ≤ i.us_read →
        (tick s i).us_distance_cm = i.us_read ∧
        (main_loop_body s i).2.printed = i.us_read)) := by
  refine ⟨?_, ?_⟩
  · rintro s ⟨evs, rfl⟩
    exact run_us_distance_nonneg evs init (le_refl _)
  · intro s i hen
    have hd : (tick s i).us_distance_cm = max i.us_read 0 := by
      rw [tick_us_distance_enabled s i hen, read_us_distance_eq_max]
    refine ⟨?_, hd, hd, ?_⟩
    · rw [main_task_enabled s i hen, read_us_distance_eq_max]
    · intro h0
      have hmax : max i.us_read 0 = i.us_read := max_eq_left h0
      exact ⟨by rw [hd, hmax], by
        show (tick s i).us_distance_cm = i.us_read
        rw [hd, hmax]⟩

theorem C17_distance_nonneg_witness :
    0 ≤ restarted_state.us_distance_cm ∧
    (tick exec_state { us_read := -3, button := false, elapsed_ms := 3 }).us_distance_cm
      = max (-3) 0 :=
  ⟨C17_distance_nonneg.1 restarted_state
      ⟨[Event.toggle,
        Event.tick { us_read := 30, button := false, elapsed_ms := 3 },
        Event.tick { us_read := 30, button := false, elapsed_ms := 3 },
        Event.toggle,
        Event.tick { us_read := 30, button := false, elapsed_ms := 3 },
        Event.toggle,
        Event.tick { us_read := 30, button := false, elapsed_ms := 3 }], rfl⟩,
    (C17_distance_nonneg.2 exec_state
      { us_read := -3, button := false, elapsed_ms := 3 } (by decide)).2.1⟩

/-- C18. Only EXECUTION drives the servo: an enabled pass that starts in
SLEEP, INITIAL or EMERGENCY sends no command, and the last commanded value of
the servo after the pass is its value before the pass, for every distance
reading and button level. -/
theorem C18_only_execution_drives (s : State) (i : Input)
    (hen : s.do_execute_main_task = true)
    (hst : s.robot_state = RobotState.SLEEP ∨ s.robot_state = RobotState.INITIAL ∨
      s.robot_state = RobotState.EMERGENCY) :
    (main_loop_body s i).2.command = none ∧
    (tick s i).servo_D0.pulse = s.servo_D0.pulse := by
  rcases hst with hst | hst | hst
  · have hm := main_task_sleep s i hen hst
    refine ⟨?_, by rw [tick_eq, hm]⟩
    show (main_task s i).2 = none
    rw [hm]
  · have hm := main_task_initial s i hen hst
    refine ⟨?_, by rw [tick_eq, hm]⟩
    show (main_task s i).2 = none
    rw [hm]
  · have hm := main_task_emergency s i hen hst
    refine ⟨?_, by rw [tick_eq, hm]⟩
    show (main_task s i).2 = none
    rw [hm]

theorem C18_only_execution_drives_witness :
    (main_loop_body sleep_state
        { us_read := 30, button := false, elapsed_ms := 3 }).2.command = none ∧
    (tick sleep_state { us_read := 30, button := false, elapsed_ms := 3 }).servo_D0.pulse
      = sleep_state.servo_D0.pulse :=
  C18_only_execution_drives sleep_state
    { us_read := 30, button := false, elapsed_ms := 3 } (by decide) (Or.inl (by decide))

/-- C19. The latch invariant: in every state reachable from the initial state
by ticks (any inputs) and toggles, `do_execute_main_task = true` implies
`do_reset_all_once = true`. Consequently, when a tick or a toggle takes a
reachable state with `do_execute_main_task` true to one where it is false,
`do_reset_all_once` is true there and the pass that follows runs the reset
body. -/
theorem C19_latch_invariant :
    (∀ s : State, Reachable s → s.do_execute_main_task = true →
      s.do_reset_all_once = true) ∧
    (∀ (s : State) (e : Event) (i : Input), Reachable s →
      s.do_execute_main_task = true → (step s e).do_execute_main_task = false →
      (step s e).do_reset_all_once = true ∧
      main_task (step s e) i =
        ({ step s e with
            do_reset_all_once := false
            led1 := false
            servo_D0 := (step s e).servo_D0.disable
            us_distance_cm := 0 }, none)) := by
  refine ⟨fun s hr => reachable_latchInv s hr, ?_⟩
  intro s e i hr hen hoff
  have hpend : s.do_reset_all_once = true := reachable_latchInv s hr hen
  have hp : (step s e).do_reset_all_once = true := by
    cases e with
    | tick j =>
      show (tick s j).do_reset_all_once = true
      rw [tick_do_reset_enabled s j hen]
      exact hpend
    | toggle =>
      show (toggle_do_execute_main_fcn s).do_reset_all_once = true
      rw [toggle_of_enabled s hen]
      exact hpend
  exact ⟨hp, main_task_disabled_pending (step s e) i hoff hp⟩

theorem C19_latch_invariant_witness :
    exec_state.do_reset_all_once = true ∧
    (step emergency_state
      (Event.tick { us_read := 30, button := false, elapsed_ms := 3 })).do_reset_all_once
      = true :=
  ⟨C19_latch_invariant.1 exec_state exec_state_reachable (by decide),
    (C19_latch_invariant.2 emergency_state
      (Event.tick { us_read := 30, button := false, elapsed_ms := 3 })
      { us_read := 30, button := false, elapsed_ms := 3 }
      emergency_state_reachable (by decide) (by decide)).1⟩

/-- C20. The servo is never re-enabled after the machine has left INITIAL: no
tick or toggle moves `robot_state` back to INITIAL; a step that enables a
disabled servo is a tick of an enabled machine in INITIAL; so from a state with
`robot_state ≠ INITIAL` and the servo disabled, the servo is disabled after
every sequence of ticks and toggles. The run enable, tick, tick, toggle off,
tick, toggle on, tick ends enabled in EXECUTION with the servo disabled, and
its last tick sends a command. -/
theorem C20_servo_never_reenabled :
    (∀ (s : State) (e : Event), s.robot_state ≠ RobotState.INITIAL →
      (step s e).robot_state ≠ RobotState.INITIAL) ∧
    (∀ (s : State) (e : Event), s.servo_D0.isEnabled = false →
      (step s e).servo_D0.isEnabled = true →
      (∃ i : Input, e = Event.tick i) ∧
        s.do_execute_main_task = true ∧ s.robot_state = RobotState.INITIAL) ∧
    (∀ (s : State) (evs : List Event), s.robot_state ≠ RobotState.INITIAL →
      s.servo_D0.isEnabled = false →
      (run s evs).servo_D0.isEnabled = false ∧
      (run s evs).robot_state ≠ RobotState.INITIAL) ∧
    (halted_state.robot_state = RobotState.EXECUTION ∧
      halted_state.servo_D0.isEnabled = false ∧
      restarted_state.robot_state = RobotState.EXECUTION ∧
      restarted_state.do_execute_main_task = true ∧
      restarted_state.servo_D0.isEnabled = false ∧
      (main_loop_body (toggle_do_execute_main_fcn halted_state)
        { us_read := 30, button := false, elapsed_ms := 3 }).2.command = some (23 / 43)) := by
  refine ⟨step_robot_state_ne_initial, ?_, fun s evs => run_servo_stays_disabled evs s, ?_⟩
  · intro s e hoff hon
    rcases step_servo_enable_cases s e hon with h | h
    · rw [hoff] at h
      exact absurd h (by decide)
    · exact h
  · refine ⟨by decide, by decide, by decide, by decide, by decide, ?_⟩
    rw [main_loop_body_command, if_pos (by decide), servo_input_eq]
    norm_num [read_us_distance]

theorem C20_servo_never_reenabled_witness :
    (run halted_state
      [Event.toggle,
       Event.tick { us_read := 30, button := false, elapsed_ms := 3 },
       Event.tick { us_read := 60, button := false, elapsed_ms := 3 },
       Event.tick { us_read := 30, button := false, elapsed_ms := 3 }]).servo_D0.isEnabled
      = false ∧
    (run halted_state
      [Event.toggle,
       Event.tick { us_read := 30, button := false, elapsed_ms := 3 },
       Event.tick { us_read := 60, button := false, elapsed_ms := 3 },
       Event.tick { us_read := 30, button := false, elapsed_ms := 3 }]).robot_state
      ≠ RobotState.INITIAL :=
  C20_servo_never_reenabled.2.2.1 halted_state _ (by decide) (by decide)

end PES
